import Mathlib

/-!
Shallow embedding of the conversation controller in
`frontend/static/next_version/js/script.js` of the `mm-ai-agent` repository.

The controller's mutable state (the `chatInput` value, the `isTyping` flag,
`conversationHistory`, the chat window message log, and the two structured
response containers) is modelled as an explicit state record `St`.  JS objects
whose fields may be `undefined` are modelled with `Option` fields; JS string
truthiness (`""` is falsy) and numeric truthiness (`0` is falsy) are modelled
by the `jsTruthyStr` / `jsOrStr` / `jsOrInt` helpers.  Code that can throw a
`TypeError` (iterating `result.products` when it is `undefined`) returns
`Except`.  The `await fetch` round trip is modelled by a `TransportResult`
input: `ok r` for a 2xx response whose body decoded to `r`, `err` for a
network failure, a non-success status, or an undecodable body (all of which
reject/throw inside `sendUserMessage`).  The order of the handler's side
effects is recorded as an explicit event trace.
-/

namespace MMAgent

/-- `regular_price` object inside `price_range.minimum_price` (the optional
chain in the source is flattened to a single `Option`). -/
structure Price where
  value : Int
  currency : String
  deriving DecidableEq, Repr

/-- A product record of a product-search payload. -/
structure Product where
  sku : String
  name : String
  small_image : Option String := none
  price_range : Option Price := none
  deriving DecidableEq, Repr

/-- One entry of `data.results` in a product response: JS object with
possibly-absent fields. -/
structure KeywordResult where
  error : Option String := none
  total_count : Option Int := none
  products : Option (List Product) := none
  deriving DecidableEq, Repr

/-- One entry of `data.items` in an order response. -/
structure OrderItem where
  name : String
  quantity : Int
  price : Int
  deriving DecidableEq, Repr

/-- The untyped `response.data` object: a JS object in which any field may be
`undefined`; a product payload populates `results`, an order payload the
order fields. -/
structure RespData where
  results : Option (List (String × KeywordResult)) := none
  order_id : Option String := none
  status : Option String := none
  order_date : Option String := none
  currency : Option String := none
  items : Option (List OrderItem) := none
  total : Option Int := none
  deriving DecidableEq, Repr

/-- Decoded body of a successful transport call. -/
structure Response where
  message : String
  type : Option String := none
  data : Option RespData := none
  deriving DecidableEq, Repr

/-- An entry of `conversationHistory` (the code pushes
`{role, message}` for the user and `{role, message, type, data}` for the
bot). -/
structure HistEntry where
  role : String
  message : String
  type : Option String := none
  data : Option RespData := none
  deriving DecidableEq, Repr

/-- A message appended to the chat window surface. -/
structure ChatMsg where
  role : String
  text : String
  deriving DecidableEq, Repr

/-- Digest of one product card produced by `renderProductResponse`. -/
structure Card where
  sku : String
  name : String
  priceText : String
  thumb : String
  deriving DecidableEq, Repr

/-- Digest of what `renderProductResponse` emits for one keyword of
`data.results`: an error line, a "no results" notice, or a carousel of
cards. -/
inductive KeywordRender where
  | errorLine (keyword msg : String)
  | noResults (keyword : String)
  | cards (keyword : String) (count : Option Int) (items : List Card)
  deriving DecidableEq, Repr

/-- One line of the order items list: `name (xquantity)` with the line total
`price * quantity`. -/
structure ItemLine where
  name : String
  quantity : Int
  lineTotal : Int
  deriving DecidableEq, Repr

/-- Digest of the HTML produced by `renderOrderResponse`. -/
structure OrderRender where
  order_id : String
  statusLabel : String
  orderDate : String
  itemLines : List ItemLine
  displayedTotal : Int
  displayedCurrency : String
  deriving DecidableEq, Repr

/-- Controller state: DOM input value, typing flag, history, chat log and the
two structured containers (`active` class plus rendered content). -/
structure St where
  chatInput : String := ""
  isTyping : Bool := false
  connectionOnline : Bool := true
  conversationHistory : List HistEntry := []
  chatWindow : List ChatMsg := []
  productActive : Bool := false
  productContent : List KeywordRender := []
  orderActive : Bool := false
  orderContent : Option OrderRender := none
  deriving DecidableEq, Repr

/-- JS truthiness of a possibly-absent string (`undefined` and `""` are
falsy). -/
def jsTruthyStr : Option String → Bool
  | some s => s != ""
  | none => false

/-- The whitespace class removed by `String.prototype.trim` (restricted to
the ASCII whitespace characters that can occur in the inputs we model). -/
def jsWhitespace (c : Char) : Bool :=
  c = ' ' || c = '\t' || c = '\n' || c = '\r'

/-- Drop leading whitespace characters. -/
def dropLeadingWs : List Char → List Char
  | [] => []
  | c :: rest => if jsWhitespace c then dropLeadingWs rest else c :: rest

/-- `String.prototype.trim`: remove whitespace from both ends. -/
def jsTrim (s : String) : String :=
  String.mk (dropLeadingWs (dropLeadingWs s.data.reverse).reverse)

/-- JS string interpolation of a possibly-absent value (`undefined` prints as
"undefined"). -/
def jsStr : Option String → String
  | some s => s
  | none => "undefined"

/-- JS `a || dflt` on a possibly-absent string. -/
def jsOrStr (o : Option String) (dflt : String) : String :=
  match o with
  | some s => if s = "" then dflt else s
  | none => dflt

/-- JS `a || dflt` on a possibly-absent number (`0` is falsy). -/
def jsOrInt (o : Option Int) (dflt : Int) : Int :=
  match o with
  | some t => if t = 0 then dflt else t
  | none => dflt

/-- Insert a `.` grouping separator after every three characters of a
reversed digit string. -/
def group3 : List Char → List Char
  | a :: b :: c :: d :: rest => a :: b :: c :: '.' :: group3 (d :: rest)
  | l => l

/-- `Intl.NumberFormat("vi-VN").format` on a natural number: thousands
grouped with `.`. -/
def formatPriceNat (m : Nat) : String :=
  String.mk ((group3 (toString m).toList.reverse).reverse)

/-- `formatPrice` of the source, restricted to integer amounts. -/
def formatPrice (n : Int) : String :=
  if n < 0 then "-" ++ formatPriceNat n.natAbs else formatPriceNat n.natAbs

/-- `translateOrderStatus`'s `statusMap` object literal. -/
def statusMap : List (String × String) :=
  [("processing", "Đang xử lý"),
   ("pending", "Chờ xác nhận"),
   ("pending_payment", "Chờ thanh toán"),
   ("on_hold", "Tạm giữ"),
   ("completed", "Hoàn thành"),
   ("canceled", "Đã hủy"),
   ("refunded", "Đã hoàn tiền"),
   ("failed", "Thất bại"),
   ("shipped", "Đang giao hàng")]

/-- `translateOrderStatus`: `statusMap[status] || status` (every label in the
table is a non-empty, hence truthy, string, so the lookup-with-fallback is
exact). -/
def translateOrderStatus (status : String) : String :=
  match statusMap.lookup status with
  | some label => label
  | none => status

/-- One product card of the carousel: price chain present means
`formatPrice(value) + " " + currency`, otherwise the "Liên hệ" fallback;
thumbnail is `small_image?.url || "placeholder-image.png"`. -/
def renderCard (p : Product) : Card :=
  { sku := p.sku
    name := p.name
    priceText :=
      match p.price_range with
      | some pr => formatPrice pr.value ++ " " ++ pr.currency
      | none => "Liên hệ"
    thumb := jsOrStr p.small_image "placeholder-image.png" }

/-- Body of the `for (const keyword in data.results)` loop for one keyword:
error line when `result.error` is truthy, "no results" notice when
`result.total_count === 0`, otherwise the card carousel — the last branch
calls `result.products.forEach` unguarded, which throws a `TypeError` when
`products` is absent. -/
def renderKeywordResult (keyword : String) (r : KeywordResult) :
    Except Unit KeywordRender :=
  if jsTruthyStr r.error then .ok (.errorLine keyword (jsStr r.error))
  else if r.total_count = some 0 then .ok (.noResults keyword)
  else
    match r.products with
    | none => .error ()
    | some ps => .ok (.cards keyword r.total_count (ps.map renderCard))

/-- The whole `for ... in data.results` loop; the first throwing entry aborts
the loop (and the container's content is then never written). -/
def renderKeywordList : List (String × KeywordResult) →
    Except Unit (List KeywordRender)
  | [] => .ok []
  | (kw, r) :: rest =>
    match renderKeywordResult kw r with
    | .error e => .error e
    | .ok kr =>
      match renderKeywordList rest with
      | .error e => .error e
      | .ok krs => .ok (kr :: krs)

/-- `addUserMessageToChat`: append a user bubble to the chat window. -/
def addUserMessageToChat (st : St) (text : String) : St :=
  { st with chatWindow := st.chatWindow ++ [{ role := "user", text := text }] }

/-- `addBotMessageToChat`: append a bot bubble to the chat window (it never
touches `conversationHistory`). -/
def addBotMessageToChat (st : St) (text : String) : St :=
  { st with chatWindow := st.chatWindow ++ [{ role := "bot", text := text }] }

/-- `setTypingState`: set the `isTyping` flag (and the indicator class). -/
def setTypingState (st : St) (typing : Bool) : St :=
  { st with isTyping := typing }

/-- `conversationHistory.push(entry)`. -/
def pushHistory (st : St) (e : HistEntry) : St :=
  { st with conversationHistory := st.conversationHistory ++ [e] }

/-- `hideAllResponseContainers`: deactivate both containers and clear their
content. -/
def hideAllResponseContainers (st : St) : St :=
  { st with productActive := false, orderActive := false,
            productContent := [], orderContent := none }

/-- `renderProductResponse`: activates the product container first, then
builds the HTML for `data.results`; a `TypeError` inside the loop escapes
before `innerHTML` is assigned, leaving the container active but empty.
`for ... in` over an absent `results` iterates zero times. -/
def renderProductResponse (st : St) (data : RespData) : Except St St :=
  match renderKeywordList (data.results.getD []) with
  | .error _ => .error { st with productActive := true }
  | .ok krs => .ok { st with productActive := true, productContent := krs }

/-- `total += item.price * item.quantity` accumulation over `data.items`. -/
def computedItemsTotal (items : List OrderItem) : Int :=
  items.foldl (fun acc it => acc + it.price * it.quantity) 0

/-- The order info digest built by `renderOrderResponse`: the displayed total
is `data.total || total` where `total` is the computed items sum, the date is
`data.order_date || "N/A"`, the currency defaults to "VND" when the field is
absent (`typeof data.currency !== "undefined"` check). -/
def mkOrderRender (data : RespData) : OrderRender :=
  { order_id := jsStr data.order_id
    statusLabel := translateOrderStatus (jsStr data.status)
    orderDate := jsOrStr data.order_date "N/A"
    itemLines := (data.items.getD []).map
      (fun it => { name := it.name, quantity := it.quantity,
                   lineTotal := it.price * it.quantity })
    displayedTotal := jsOrInt data.total (computedItemsTotal (data.items.getD []))
    displayedCurrency := data.currency.getD "VND" }

/-- `renderOrderResponse`: activate the order container and write the order
info. -/
def renderOrderResponse (st : St) (data : RespData) : St :=
  { st with orderActive := true, orderContent := some (mkOrderRender data) }

/-- `processResponse`: hide both structured containers, add the text message
to the chat, then route on `response.type` when `response.data` is present. -/
def processResponse (st : St) (response : Response) : Except St St :=
  if response.type = some "product" then
    match response.data with
    | some d =>
      renderProductResponse
        (addBotMessageToChat (hideAllResponseContainers st) response.message) d
    | none =>
      .ok (addBotMessageToChat (hideAllResponseContainers st) response.message)
  else if response.type = some "order" then
    match response.data with
    | some d =>
      .ok (renderOrderResponse
        (addBotMessageToChat (hideAllResponseContainers st) response.message) d)
    | none =>
      .ok (addBotMessageToChat (hideAllResponseContainers st) response.message)
  else
    .ok (addBotMessageToChat (hideAllResponseContainers st) response.message)

/-- The fixed failure notice of the `catch` block of `handleUserMessage`. -/
def failureNotice : String :=
  "Xin lỗi, tôi không thể xử lý yêu cầu của bạn lúc này. Vui lòng thử lại sau."

/-- The offline notice emitted by `setOfflineStatus`. -/
def offlineNotice : String :=
  "Xin lỗi, dịch vụ hiện đang ngoại tuyến. Vui lòng thử lại sau hoặc liên hệ bộ phận hỗ trợ."

/-- `setOfflineStatus`: flip the connectivity badge and add an offline bot
message to the chat (no history entry). -/
def setOfflineStatus (st : St) : St :=
  addBotMessageToChat { st with connectionOnline := false } offlineNotice

/-- `handleAddToCart`: log and show a confirmation bubble; no history entry,
no cart mutation. -/
def handleAddToCart (st : St) (sku : String) : St :=
  addBotMessageToChat st
    ("Đã thêm sản phẩm có mã <strong>" ++ sku ++ "</strong> vào giỏ hàng của bạn!")

/-- `handleOrderAction`: show a confirmation bubble for "track" or "cancel";
no history entry, no order mutation. -/
def handleOrderAction (st : St) (action : String) (orderId : String) : St :=
  if action = "track" then
    addBotMessageToChat st
      ("Đơn hàng #" ++ orderId ++
       " đang trong quá trình vận chuyển. Dự kiến giao hàng trong 3-5 ngày làm việc.")
  else if action = "cancel" then
    addBotMessageToChat st
      ("Yêu cầu hủy đơn hàng #" ++ orderId ++
       " đã được ghi nhận. Bộ phận CSKH sẽ liên hệ với bạn trong thời gian sớm nhất.")
  else st

/-- Outcome of the `await sendUserMessage(...)` round trip: `ok r` when the
fetch resolved with a 2xx status and the body decoded to `r`; `err` for a
network failure, a non-success status (the `throw new Error` branch), or an
undecodable body (`response.json()` rejecting). -/
inductive TransportResult where
  | ok (r : Response)
  | err
  deriving DecidableEq, Repr

/-- Observable side effects of one `handleUserMessage` run, in program
order: chat-surface appends, `conversationHistory` pushes, `isTyping` flag
writes, the transport call, and the hand-off to `processResponse`. -/
inductive Ev where
  | chatAppend (role text : String)
  | histPush (role : String)
  | setFlag (b : Bool)
  | transportCall (message : String)
  | dispatchStart
  deriving DecidableEq, Repr

/-- Lines 100-114 of the accepted-submission path: clear the input, echo the
user bubble, push the user history entry, set the typing flag. -/
def submitPhase (st : St) : St :=
  setTypingState
    (pushHistory (addUserMessageToChat { st with chatInput := "" } (jsTrim st.chatInput))
      { role := "user", message := (jsTrim st.chatInput) })
    true

/-- `handleUserMessage`: guard (`!userMessage || isTyping`), accepted
submission, then the `try`/`catch` around transport, dispatch and the bot
history push, paired with the event trace in execution order. -/
def handleUserMessage (st : St) (tr : TransportResult) : St × List Ev :=
  if (jsTrim st.chatInput) = "" ∨ st.isTyping = true then (st, [])
  else
    match tr with
    | .err =>
      (addBotMessageToChat (setTypingState (submitPhase st) false) failureNotice,
       [.chatAppend "user" (jsTrim st.chatInput), .histPush "user", .setFlag true,
        .transportCall (jsTrim st.chatInput), .setFlag false,
        .chatAppend "bot" failureNotice])
    | .ok r =>
      match processResponse (setTypingState (submitPhase st) false) r with
      | .ok st2 =>
        (pushHistory st2
          { role := "bot", message := r.message, type := r.type, data := r.data },
         [.chatAppend "user" (jsTrim st.chatInput), .histPush "user", .setFlag true,
          .transportCall (jsTrim st.chatInput), .setFlag false, .dispatchStart,
          .histPush "bot"])
      | .error stE =>
        (addBotMessageToChat (setTypingState stE false) failureNotice,
         [.chatAppend "user" (jsTrim st.chatInput), .histPush "user", .setFlag true,
          .transportCall (jsTrim st.chatInput), .setFlag false, .dispatchStart,
          .setFlag false, .chatAppend "bot" failureNotice])

/-- The event trace of one `handleUserMessage` run. -/
def humTrace (st : St) (tr : TransportResult) : List Ev :=
  (handleUserMessage st tr).2

/-- Index of the first occurrence of an event in a trace. -/
def evIdx : List Ev → Ev → Option Nat
  | [], _ => none
  | x :: rest, e => if x = e then some 0 else (evIdx rest e).map (· + 1)

/-- `evBefore t a b` holds when both events occur in `t` and the first
occurrence of `a` strictly precedes the first occurrence of `b`. -/
def evBefore (t : List Ev) (a b : Ev) : Bool :=
  match evIdx t a, evIdx t b with
  | some i, some j => decide (i < j)
  | _, _ => false

/-- The state observable after `processResponse`, on the normal and on the
throwing path alike. -/
def exceptSt : Except St St → St
  | .ok s => s
  | .error s => s

/-- `foldl` accumulation of the per-item totals equals the accumulator plus
the sum of the mapped line totals. -/
theorem foldl_items_total (items : List OrderItem) (acc : Int) :
    items.foldl (fun a it => a + it.price * it.quantity) acc
      = acc + (items.map (fun it => it.price * it.quantity)).sum := by
  induction items generalizing acc with
  | nil => simp
  | cons x xs ih => simp [ih, add_assoc]

/-- The running total accumulated by `renderOrderResponse` is the sum of
`price * quantity` over the items. -/
theorem computedItemsTotal_eq_sum (items : List OrderItem) :
    computedItemsTotal items = (items.map (fun it => it.price * it.quantity)).sum := by
  unfold computedItemsTotal
  rw [foldl_items_total]
  simp

/-- C1: a submission whose input is empty after trimming, or attempted while
`isTyping` is true (the machine is in `AwaitingReply`), is a no-op:
`handleUserMessage` returns the state unchanged (so `conversationHistory` and
the `awaitingReply` flag are untouched and no Turn is appended) with an empty
effect trace (so no transport call is made). -/
theorem c1_rejected_submission_noop (st : St) (tr : TransportResult)
    (h : (jsTrim st.chatInput) = "" ∨ st.isTyping = true) :
    handleUserMessage st tr = (st, []) := by
  unfold handleUserMessage
  rw [if_pos h]

/-- C1 witness: a whitespace-only submission is a no-op at a concrete
state. -/
theorem c1_rejected_submission_noop_witness :
    handleUserMessage { chatInput := "   " } .err = ({ chatInput := "   " }, []) :=
  c1_rejected_submission_noop { chatInput := "   " } .err (Or.inl (by decide))

/-- C6: when the `total` field of an order payload is absent, the total
displayed by the order renderer is the sum of `price * quantity` over the
items. -/
theorem c6_absent_total_is_items_sum (st : St) (d : RespData) (h : d.total = none) :
    (renderOrderResponse st d).orderContent = some (mkOrderRender d) ∧
    (mkOrderRender d).displayedTotal =
      ((d.items.getD []).map (fun it => it.price * it.quantity)).sum := by
  refine ⟨rfl, ?_⟩
  simp [mkOrderRender, jsOrInt, h, computedItemsTotal_eq_sum]

/-- C6 witness: an order with two items and no `total` field displays the
items sum. -/
theorem c6_absent_total_is_items_sum_witness :
    (renderOrderResponse {}
        { status := some "shipped",
          items := some [{ name := "a", quantity := 2, price := 10 },
                         { name := "b", quantity := 3, price := 7 }] }).orderContent =
      some (mkOrderRender
        { status := some "shipped",
          items := some [{ name := "a", quantity := 2, price := 10 },
                         { name := "b", quantity := 3, price := 7 }] }) ∧
    (mkOrderRender
        { status := some "shipped",
          items := some [{ name := "a", quantity := 2, price := 10 },
                         { name := "b", quantity := 3, price := 7 }] }).displayedTotal =
      (([{ name := "a", quantity := 2, price := 10 },
          { name := "b", quantity := 3, price := 7 }] : List OrderItem).map
        (fun it => it.price * it.quantity)).sum :=
  c6_absent_total_is_items_sum {}
    { status := some "shipped",
      items := some [{ name := "a", quantity := 2, price := 10 },
                     { name := "b", quantity := 3, price := 7 }] } rfl

/-- C9: `data.total || total` treats a present-but-zero `total` as falsy, so
an order whose `total` field equals 0 also displays the computed items sum,
not the 0 override. -/
theorem c9_zero_total_is_falsy (st : St) (d : RespData) (h : d.total = some 0) :
    (renderOrderResponse st d).orderContent = some (mkOrderRender d) ∧
    (mkOrderRender d).displayedTotal =
      ((d.items.getD []).map (fun it => it.price * it.quantity)).sum := by
  refine ⟨rfl, ?_⟩
  simp [mkOrderRender, jsOrInt, h, computedItemsTotal_eq_sum]

/-- C9 witness: `total = 0` with one item displays the item sum. -/
theorem c9_zero_total_is_falsy_witness :
    (renderOrderResponse {}
        { items := some [{ name := "a", quantity := 2, price := 10 }],
          total := some 0 }).orderContent =
      some (mkOrderRender
        { items := some [{ name := "a", quantity := 2, price := 10 }],
          total := some 0 }) ∧
    (mkOrderRender
        { items := some [{ name := "a", quantity := 2, price := 10 }],
          total := some 0 }).displayedTotal =
      (([{ name := "a", quantity := 2, price := 10 }] : List OrderItem).map
        (fun it => it.price * it.quantity)).sum :=
  c9_zero_total_is_falsy {}
    { items := some [{ name := "a", quantity := 2, price := 10 }],
      total := some 0 } rfl

/-- C7: `translateOrderStatus` maps every status present in the fixed
`statusMap` table to its localized label, returns every other status verbatim,
and never fails (it is a total function on strings). -/
theorem c7_translateOrderStatus_lookup (status label : String) :
    (statusMap.lookup status = some label → translateOrderStatus status = label) ∧
    (statusMap.lookup status = none → translateOrderStatus status = status) := by
  constructor
  · intro h
    unfold translateOrderStatus
    rw [h]
  · intro h
    unfold translateOrderStatus
    rw [h]

/-- C7 witness: the known key "shipped" maps to its label and an unknown
status passes through verbatim. -/
theorem c7_translateOrderStatus_lookup_witness :
    translateOrderStatus "shipped" = "Đang giao hàng" ∧
    translateOrderStatus "weird" = "weird" :=
  ⟨(c7_translateOrderStatus_lookup "shipped" "Đang giao hàng").1 (by decide),
   (c7_translateOrderStatus_lookup "weird" "weird").2 (by decide)⟩

/-- An entry with a products list where the card branch needs one makes the
per-keyword renderer succeed. -/
theorem renderKeywordResult_total (kw : String) (r : KeywordResult)
    (hwf : jsTruthyStr r.error = false → r.total_count ≠ some 0 →
      r.products.isSome = true) :
    ∃ kr, renderKeywordResult kw r = .ok kr := by
  by_cases he : jsTruthyStr r.error
  · exact ⟨.errorLine kw (jsStr r.error), by simp [renderKeywordResult, he]⟩
  · simp only [Bool.not_eq_true] at he
    by_cases hc : r.total_count = some 0
    · exact ⟨.noResults kw, by simp [renderKeywordResult, he, hc]⟩
    · obtain ⟨ps, hps⟩ := Option.isSome_iff_exists.mp (hwf he hc)
      exact ⟨.cards kw r.total_count (ps.map renderCard),
        by simp [renderKeywordResult, he, hc, hps]⟩

/-- The whole keyword loop succeeds when every entry that reaches the card
branch carries a products list. -/
theorem renderKeywordList_total (l : List (String × KeywordResult))
    (h : ∀ kw r, (kw, r) ∈ l → jsTruthyStr r.error = false →
      r.total_count ≠ some 0 → r.products.isSome = true) :
    ∃ krs, renderKeywordList l = .ok krs := by
  induction l with
  | nil => exact ⟨[], rfl⟩
  | cons x xs ih =>
    obtain ⟨kw, r⟩ := x
    obtain ⟨kr, hkr⟩ := renderKeywordResult_total kw r (h kw r (List.mem_cons_self _ _))
    obtain ⟨krs, hkrs⟩ := ih (fun k res hm => h k res (List.mem_cons_of_mem _ hm))
    exact ⟨kr :: krs, by simp [renderKeywordList, hkr, hkrs]⟩

/-- C5: on every keyword entry of a well-shaped `ProductSearchResult` (an
entry that reaches the card branch carries a products list, as the spec's
data model requires), the per-keyword renderer produces exactly one of, in
this priority order: an error line when the entry's error is truthy, a "no
results" notice — and no product cards — when `total_count` is 0, or the
product cards otherwise.  The three outcomes are distinct constructors of
`KeywordRender`, so exactly one is produced. -/
theorem c5_keyword_render_trichotomy (kw : String) (r : KeywordResult)
    (hwf : jsTruthyStr r.error = false → r.total_count ≠ some 0 →
      r.products.isSome = true) :
    (jsTruthyStr r.error = true →
      renderKeywordResult kw r = .ok (.errorLine kw (jsStr r.error))) ∧
    (jsTruthyStr r.error = false → r.total_count = some 0 →
      renderKeywordResult kw r = .ok (.noResults kw)) ∧
    (jsTruthyStr r.error = false → r.total_count ≠ some 0 →
      renderKeywordResult kw r =
        .ok (.cards kw r.total_count ((r.products.getD []).map renderCard))) := by
  refine ⟨?_, ?_, ?_⟩
  · intro he
    simp [renderKeywordResult, he]
  · intro he hc
    simp [renderKeywordResult, he, hc]
  · intro he hc
    obtain ⟨ps, hps⟩ := Option.isSome_iff_exists.mp (hwf he hc)
    simp [renderKeywordResult, he, hc, hps]

/-- C5 witness: `total_count = 0` for keyword "xyz" renders the "no results"
notice (a constructor that carries no cards). -/
theorem c5_keyword_render_trichotomy_witness :
    renderKeywordResult "xyz" { total_count := some 0 } = .ok (.noResults "xyz") :=
  (c5_keyword_render_trichotomy "xyz" { total_count := some 0 }
    (fun _ hc => absurd rfl hc)).2.1 rfl rfl

/-- C8: the card branch iterates `result.products` unguarded, so an entry
with no truthy error and `total_count ≠ 0` but absent `products` throws (the
per-keyword renderer hits its failure branch); the full product renderer is
total when every such entry carries a products list; and the failure branch
is reachable: on a concrete payload with `total_count = 1` and no `products`
the renderer throws, leaving the product container active and empty. -/
theorem c8_unguarded_products_iteration (st : St) (d : RespData)
    (kw : String) (r : KeywordResult)
    (hwf : ∀ k res, (k, res) ∈ d.results.getD [] → jsTruthyStr res.error = false →
      res.total_count ≠ some 0 → res.products.isSome = true) :
    (jsTruthyStr r.error = false → r.total_count ≠ some 0 → r.products = none →
      renderKeywordResult kw r = .error ()) ∧
    (∃ st2, renderProductResponse st d = .ok st2) ∧
    renderProductResponse st { results := some [("bad", { total_count := some 1 })] } =
      .error { st with productActive := true } := by
  refine ⟨?_, ?_, ?_⟩
  · intro he hc hp
    simp [renderKeywordResult, he, hc, hp]
  · obtain ⟨krs, hkrs⟩ := renderKeywordList_total (d.results.getD []) hwf
    exact ⟨{ st with productActive := true, productContent := krs },
      by simp [renderProductResponse, hkrs]⟩
  · rfl

/-- C8 witness: the concrete reachability conjunct at the pristine state. -/
theorem c8_unguarded_products_iteration_witness :
    renderProductResponse {} { results := some [("bad", { total_count := some 1 })] } =
      .error { productActive := true } :=
  (c8_unguarded_products_iteration {} {} "bad" {}
    (fun _ _ hm => absurd hm (List.not_mem_nil _))).2.2

/-- C2 counterexample: on a concrete accepted submission whose transport
succeeds, the assistant history push does not precede the `isTyping := false`
flag flip — on the contrary, the flag flip and the dispatch both strictly
precede it, refuting the claimed append-before-flip-before-dispatch order on
the `onSuccess` transition. -/
theorem c2_effect_order_counterexample :
    evBefore (humTrace { chatInput := "hi" } (.ok { message := "ok" }))
      (.histPush "bot") (.setFlag false) = false ∧
    evBefore (humTrace { chatInput := "hi" } (.ok { message := "ok" }))
      (.histPush "bot") .dispatchStart = false ∧
    evBefore (humTrace { chatInput := "hi" } (.ok { message := "ok" }))
      (.setFlag false) (.histPush "bot") = true ∧
    evBefore (humTrace { chatInput := "hi" } (.ok { message := "ok" }))
      .dispatchStart (.histPush "bot") = true := by decide

/-- C2 amended: the effect order the code actually implements.  On an
accepted submission the user Turn append happens before the `isTyping` flag
is set, which happens before the transport call; once the transport resolves
the flag is cleared first; on success the response is dispatched after the
flag clear and the assistant Turn is pushed to the history only after
dispatch (not before it); on transport failure the flag clear precedes the
failure-notice chat append. -/
theorem c2_effect_order (st : St) (tr : TransportResult)
    (h : ¬((jsTrim st.chatInput) = "" ∨ st.isTyping = true)) :
    ∃ tail,
      humTrace st tr =
        [.chatAppend "user" (jsTrim st.chatInput), .histPush "user", .setFlag true,
         .transportCall (jsTrim st.chatInput), .setFlag false] ++ tail ∧
      (tail = [.chatAppend "bot" failureNotice] ∨
       tail = [.dispatchStart, .histPush "bot"] ∨
       tail = [.dispatchStart, .setFlag false, .chatAppend "bot" failureNotice]) ∧
      (tr = .err → tail = [.chatAppend "bot" failureNotice]) := by
  unfold humTrace handleUserMessage
  rw [if_neg h]
  cases tr with
  | err =>
    exact ⟨[.chatAppend "bot" failureNotice], rfl, Or.inl rfl, fun _ => rfl⟩
  | ok r =>
    cases hpr : processResponse (setTypingState (submitPhase st) false) r with
    | ok st2 =>
      refine ⟨[.dispatchStart, .histPush "bot"], ?_, Or.inr (Or.inl rfl),
        fun hh => nomatch hh⟩
      simp [hpr]
    | error stE =>
      refine ⟨[.dispatchStart, .setFlag false, .chatAppend "bot" failureNotice], ?_,
        Or.inr (Or.inr rfl), fun hh => nomatch hh⟩
      simp [hpr]

/-- C2 amended witness: the failure-side ordering at a concrete state. -/
theorem c2_effect_order_witness :
    ∃ tail,
      humTrace { chatInput := "hi" } .err =
        [.chatAppend "user" (jsTrim "hi"), .histPush "user", .setFlag true,
         .transportCall (jsTrim "hi"), .setFlag false] ++ tail ∧
      (tail = [.chatAppend "bot" failureNotice] ∨
       tail = [.dispatchStart, .histPush "bot"] ∨
       tail = [.dispatchStart, .setFlag false, .chatAppend "bot" failureNotice]) ∧
      (TransportResult.err = .err → tail = [.chatAppend "bot" failureNotice]) :=
  c2_effect_order { chatInput := "hi" } .err (by decide)

/-- C3: after an accepted submission whose transport fails (network error,
non-success status, or undecodable body — all modelled by
`TransportResult.err`), exactly one bot chat message carrying the fixed
failure notice is appended, `isTyping` returns to false, the history grows
only by the user entry (the failure handler adds no assistant history entry),
the structured containers are exactly as before the call — so the failure
path shows no structured panel — and the handler returns normally: the model
is a total function, mirroring the catch block that logs and swallows the
error instead of re-throwing it. -/
theorem c3_transport_failure_recovery (st : St)
    (h : ¬((jsTrim st.chatInput) = "" ∨ st.isTyping = true)) :
    (handleUserMessage st .err).1 =
      { st with
        chatInput := "",
        isTyping := false,
        conversationHistory := st.conversationHistory ++
          [{ role := "user", message := jsTrim st.chatInput }],
        chatWindow := st.chatWindow ++
          [{ role := "user", text := jsTrim st.chatInput },
           { role := "bot", text := failureNotice }] } := by
  unfold handleUserMessage
  rw [if_neg h]
  simp [submitPhase, setTypingState, pushHistory, addUserMessageToChat,
        addBotMessageToChat]

/-- C3 witness: the failure transition at a concrete accepted submission. -/
theorem c3_transport_failure_recovery_witness :
    (handleUserMessage { chatInput := "hello" } .err).1 =
      { ({ chatInput := "hello" } : St) with
        chatInput := "",
        isTyping := false,
        conversationHistory := [{ role := "user", message := jsTrim "hello" }],
        chatWindow := [{ role := "user", text := jsTrim "hello" },
                       { role := "bot", text := failureNotice }] } :=
  c3_transport_failure_recovery { chatInput := "hello" } (by decide)

/-- C4: `processResponse` starts by clearing both structured containers
(`hideAllResponseContainers`, an idempotent reset that is safe on any state,
the pristine initial one with no prior render included), so whatever state it
is called on: at most one container is active afterwards (also on the
throwing render path), a `product` response with data leaves exactly the
product panel active — in particular dispatching it right after an `order`
response leaves only the product panel — and an `order` response with data
leaves exactly the order panel active. -/
theorem c4_dispatch_single_surface (st : St) (r : Response) :
    ((exceptSt (processResponse st r)).productActive = false ∨
      (exceptSt (processResponse st r)).orderActive = false) ∧
    (r.type = some "product" → r.data.isSome = true →
      (exceptSt (processResponse st r)).productActive = true ∧
      (exceptSt (processResponse st r)).orderActive = false) ∧
    (r.type = some "order" → r.data.isSome = true →
      (exceptSt (processResponse st r)).orderActive = true ∧
      (exceptSt (processResponse st r)).productActive = false) := by
  unfold processResponse
  by_cases hp : r.type = some "product"
  · rw [if_pos hp]
    cases hd : r.data with
    | none => simp [hp, hd, exceptSt, addBotMessageToChat, hideAllResponseContainers]
    | some d =>
      unfold renderProductResponse
      cases hk : renderKeywordList (d.results.getD []) with
      | ok krs =>
        simp [hp, hd, hk, exceptSt, addBotMessageToChat, hideAllResponseContainers]
      | error e =>
        simp [hp, hd, hk, exceptSt, addBotMessageToChat, hideAllResponseContainers]
  · rw [if_neg hp]
    by_cases ho : r.type = some "order"
    · rw [if_pos ho]
      cases hd : r.data with
      | none => simp [hp, ho, hd, exceptSt, addBotMessageToChat, hideAllResponseContainers]
      | some d =>
        simp [hp, ho, hd, exceptSt, renderOrderResponse, addBotMessageToChat,
              hideAllResponseContainers]
    · rw [if_neg ho]
      simp [hp, ho, exceptSt, addBotMessageToChat, hideAllResponseContainers]

/-- C4 witness: dispatching a product response on a state in which the order
panel is active leaves only the product panel active. -/
theorem c4_dispatch_single_surface_witness :
    (exceptSt (processResponse { orderActive := true }
        { message := "m", type := some "product",
          data := some { results := some [] } })).productActive = true ∧
    (exceptSt (processResponse { orderActive := true }
        { message := "m", type := some "product",
          data := some { results := some [] } })).orderActive = false :=
  (c4_dispatch_single_surface { orderActive := true }
    { message := "m", type := some "product",
      data := some { results := some [] } }).2.1 rfl rfl

/-- C10: `conversationHistory` is written only by the submission and success
paths.  The chat-surface helpers leave it unchanged: `addBotMessageToChat`
only appends a bot bubble to the chat window, and the add-to-cart
confirmation, the order-action confirmations and the offline notice all go
through it; on a transport failure the whole handler run grows the history by
exactly the accepted user entry — the failure handler itself appends nothing
to the history. -/
theorem c10_history_frame (st : St) (text sku action orderId : String)
    (h : ¬((jsTrim st.chatInput) = "" ∨ st.isTyping = true)) :
    (addBotMessageToChat st text).conversationHistory = st.conversationHistory ∧
    (addBotMessageToChat st text).chatWindow =
      st.chatWindow ++ [{ role := "bot", text := text }] ∧
    (handleAddToCart st sku).conversationHistory = st.conversationHistory ∧
    (handleOrderAction st action orderId).conversationHistory =
      st.conversationHistory ∧
    (setOfflineStatus st).conversationHistory = st.conversationHistory ∧
    (handleUserMessage st .err).1.conversationHistory =
      st.conversationHistory ++ [{ role := "user", message := jsTrim st.chatInput }] := by
  refine ⟨rfl, rfl, rfl, ?_, rfl, ?_⟩
  · unfold handleOrderAction
    split
    · rfl
    · split
      · rfl
      · rfl
  · unfold handleUserMessage
    rw [if_neg h]
    rfl

/-- C10 witness: the frame facts at a concrete state. -/
theorem c10_history_frame_witness :
    (addBotMessageToChat { chatInput := "q" } "note").conversationHistory = [] ∧
    (handleUserMessage { chatInput := "q" } .err).1.conversationHistory =
      [] ++ [{ role := "user", message := jsTrim "q" }] :=
  ⟨(c10_history_frame { chatInput := "q" } "note" "s" "track" "7" (by decide)).1,
   (c10_history_frame { chatInput := "q" } "note" "s" "track" "7" (by decide)).2.2.2.2.2⟩

end MMAgent
